import Mathlib

/-!
Verification of the agent-commerce audit pipeline (backend/app.py and
backend/core).  The Python code is shallowly embedded: BeautifulSoup and
json.loads are external collaborators, so an `Html` value records the
outcome of the soup queries the code performs (script blocks already run
through the JSON parser, meta-tag contents, selector texts), and every
function below mirrors the corresponding Python function's control flow
over those outcomes.  Python exceptions that escape a function are made
explicit with `Except PyErr`.
-/

set_option autoImplicit false

/-- Python-style JSON values (the results of json.loads).  Numbers are
modelled as integers; no claim depends on fractional JSON literals. -/
inductive Json where
  | null
  | bool (b : Bool)
  | num (n : Int)
  | str (s : String)
  | arr (xs : List Json)
  | obj (fields : List (String × Json))

/-- Python truthiness for JSON-shaped values: None, False, 0, empty string,
empty list and empty dict are falsy. -/
def truthyJ : Json → Bool
  | .null => false
  | .bool b => b
  | .num n => !(n == 0)
  | .str s => !(s == "")
  | .arr xs => !xs.isEmpty
  | .obj kvs => !kvs.isEmpty

/-- Dict key lookup (first binding wins, as in a Python dict). -/
def lookupJ (kvs : List (String × Json)) (k : String) : Option Json :=
  match kvs with
  | [] => none
  | (a, v) :: rest => if a == k then some v else lookupJ rest k

/-- Python `d.get(k)` (default None). -/
def jget (kvs : List (String × Json)) (k : String) : Json :=
  (lookupJ kvs k).getD .null

/-- Python `d.get(k, default)`. -/
def jgetD (kvs : List (String × Json)) (k : String) (d : Json) : Json :=
  (lookupJ kvs k).getD d

/-- Python `a or b` over JSON values (value-preserving). -/
def pyOrJ (a b : Json) : Json := if truthyJ a then a else b

/-- Whether `pat` occurs at the head of `l` (character-wise). -/
def leadsWith : List Char → List Char → Bool
  | [], _ => true
  | _ :: _, [] => false
  | a :: as, b :: bs => a == b && leadsWith as bs

/-- Substring occurrence over character lists. -/
def hasSub (pat : List Char) : List Char → Bool
  | [] => leadsWith pat []
  | c :: cs => leadsWith pat (c :: cs) || hasSub pat cs

/-- Python `pat in hay` for strings. -/
def pyContains (hay pat : String) : Bool := hasSub pat.data hay.data

/-- Python `str.lower` (ASCII case folding; the block signals and the
claims' inputs are ASCII, so the unicode case table is immaterial). -/
def pyLower (s : String) : String := String.mk (s.data.map Char.toLower)

/-- Python truthiness of an optional string: None and "" are falsy. -/
def truthyS : Option String → Bool
  | none => false
  | some s => !(s == "")

/-- Python `a or b` over optional strings (value-preserving: returns `b`
itself, truthy or not, when `a` is falsy). -/
def pyOr (a b : Option String) : Option String := if truthyS a then a else b

/-- Python whitespace for `str.strip` (ASCII part; any wider whitespace a
real `strip` removes is removed again by the digit-and-dot filter of
`clean_price`, so the difference never reaches an observable value). -/
def isPyWs (c : Char) : Bool :=
  c == ' ' || c == '\t' || c == '\n' || c == '\r' || c == '\x0b' || c == '\x0c'

/-- Python `str.strip()` over character lists. -/
def stripL (l : List Char) : List Char :=
  ((l.dropWhile isPyWs).reverse.dropWhile isPyWs).reverse

/-- Python `s.replace(pat, "")`: delete each leftmost, non-overlapping
occurrence of `pat`.  Fuelled by the input length, which bounds the number
of steps (each step consumes at least one character), so the fuel never
runs out and the recursion is structural. -/
def removeAllFuel (pat : List Char) : Nat → List Char → List Char
  | 0, l => l
  | _ + 1, [] => []
  | fuel + 1, c :: cs =>
    if leadsWith pat (c :: cs) && !pat.isEmpty then
      removeAllFuel pat fuel ((c :: cs).drop pat.length)
    else
      c :: removeAllFuel pat fuel cs

def removeAll (pat l : List Char) : List Char := removeAllFuel pat l.length l

/-- The characters `re.sub(r"[^\d.]", "", t)` keeps (ASCII digits and the
dot; Python's `\d` also covers non-ASCII digits, which none of the
normalizer's observable properties depend on). -/
def isDigitDot (c : Char) : Bool := c.isDigit || c == '.'

/-- app.py `clean_price`: strip, drop the currency markers, keep only
digits and dots, and map the empty result to None. -/
def clean_price (text : Option String) : Option String :=
  match text with
  | none => none
  | some s =>
    if s == "" then none
    else
      let t0 := stripL s.data
      let t1 := removeAll "₹".data t0
      let t2 := removeAll "Rs.".data t1
      let t3 := removeAll "MRP".data t2
      let t4 := removeAll "/-".data t3
      let t5 := t4.filter isDigitDot
      if t5 == [] then none else some (String.mk t5)

/-- app.py `is_block_page`: empty or absent HTML is blocked; otherwise a
case-insensitive substring scan against the fixed block signals, plus two
Amazon-specific signals when the URL contains "amazon.". -/
def is_block_page (url : String) (html : Option String) : Bool :=
  match html with
  | none => true
  | some h =>
    if h == "" then true
    else
      let t := pyLower h
      if pyContains t "site maintenance" || pyContains t "service unavailable" then true
      else if pyContains t "captcha" || pyContains t "automated access" || pyContains t "bot check" || pyContains t "access denied" then true
      else if pyContains url "amazon." && (pyContains t "to discuss automated access to amazon data" || pyContains t "enter the characters you see below") then true
      else false

/-- Python exceptions that escape the embedded functions. -/
inductive PyErr where
  | nameError
  | attributeError
deriving DecidableEq, Repr

/-- The repeated acceptance test of the fetch orchestrator:
`html and not is_block_page(url, html)`. -/
def usable (url : String) (html : Option String) : Bool :=
  truthyS html && !is_block_page url html

/-- app.py `fetch_via_proxy`, parameterized on the configured credential and
on the outcome of the external HTTP call (`serviceResult` is the service's
body on a 200 response and None on any other status or transport error).
With no credential the function returns None before any request is made. -/
def fetch_via_proxy (key : Option String) (serviceResult : Option String) : Option String :=
  if !truthyS key then none else serviceResult

/-- app.py `fetch_page`, parameterized on the configured credential `key`
and on the outcomes each acquisition strategy would produce: `pw` from
fetch_via_playwright, `prox` from the proxy service, `http` from
fetch_via_httpx.  When `key` is falsy the proxy block is skipped, the local
name `proxy_html` is never assigned, and the final fallback expression
`html or proxy_html or http_html` raises NameError as soon as it has to
evaluate `proxy_html`, i.e. exactly when `html` is falsy. -/
def fetch_page (key : Option String) (url : String) (pw prox http : Option String) :
    Except PyErr (Option String) :=
  if usable url pw then .ok pw
  else if truthyS key then
    if usable url prox then .ok prox
    else if usable url http then .ok http
    else .ok (pyOr pw (pyOr prox http))
  else
    if usable url http then .ok http
    else if truthyS pw then .ok pw
    else .error .nameError

/-- How the audit endpoint (app.py `audit_store`) chooses its fetch path
after the cache check: myntra URLs demand the proxy and turn a missing
credential into an HTTP 403 error response; every other URL goes through
the default `fetch_page` order. -/
inductive FetchDispatch where
  | httpError (code : Nat) (detail : String)
  | proxyFetch
  | defaultFetch
deriving DecidableEq, Repr

def audit_fetch_dispatch (key : Option String) (url : String) : FetchDispatch :=
  if pyContains url "myntra." then
    if !truthyS key then
      .httpError 403 "Myntra requires proxy but no SCRAPER_API_KEY is set"
    else .proxyFetch
  else .defaultFetch

/-- The product record built by the extraction waterfall: the values of the
four keys of the Python dict, each an arbitrary Python/JSON value (None is
`Json.null`). -/
structure Product where
  name : Json
  price : Json
  currency : Json
  availability : Json

/-- Lift an optional string (a tag text or a clean_price result) into the
record's value space. -/
def optStr : Option String → Json
  | none => .null
  | some s => .str s

/-- Parsed view of an HTML document: the outcome of every BeautifulSoup
query `extract_product_info` performs.  Script blocks appear in document
order, already run through `json.loads` (None marks a block whose parse
raised).  Selector fields hold `get_text(strip=True)` of the first match.
`metas` lists meta tags as (property-or-name attribute, content attribute)
pairs in document order. -/
structure Html where
  jsonLd : List (Option Json)
  metas : List (String × String)
  amazonName : Option String
  amazonPrice : Option String
  amazonPriceWhole : Option String
  amazonPriceSymbol : Option String
  amazonAvail : Option String
  flipkartName : Option String
  flipkartPrice : Option String
  flipkartAvail : Option String
  nextDataParse : Option (Option Json)
  scriptScan : Option Json
  myntraName : Option String
  myntraPrice : Option String
  myntraAddToBag : Bool
  myntraOosBtn : Bool
  myntraOosText : Bool
  title : Option String

/-- A document with no scripts, no metas, no selector hits and no title. -/
def emptyHtml : Html :=
  { jsonLd := [], metas := [], amazonName := none, amazonPrice := none,
    amazonPriceWhole := none, amazonPriceSymbol := none, amazonAvail := none,
    flipkartName := none, flipkartPrice := none, flipkartAvail := none,
    nextDataParse := none, scriptScan := none, myntraName := none,
    myntraPrice := none, myntraAddToBag := false, myntraOosBtn := false,
    myntraOosText := false, title := none }

/-- Python `data.get("@type") == "Product"` (equality with a string is only
true for an equal string). -/
def typeIsProduct (kvs : List (String × Json)) : Bool :=
  match jget kvs "@type" with
  | .str s => s == "Product"
  | _ => false

/-- First dict element of a JSON array whose declared type is "Product"
(the generator inside `next(...)`). -/
def firstProductElem : List Json → Option (List (String × Json))
  | [] => none
  | .obj kvs :: rest => if typeIsProduct kvs then some kvs else firstProductElem rest
  | _ :: rest => firstProductElem rest

/-- The type dispatch of the JSON-LD loop body: a dict is accepted when its
"@type" is "Product"; a list is replaced by its first Product element;
anything else is not a product. -/
def productOf : Json → Option (List (String × Json))
  | .obj kvs => if typeIsProduct kvs then some kvs else none
  | .arr xs => firstProductElem xs
  | _ => none

/-- The offers normalization: `offers = data.get("offers", {}) or {}`, then
first element if a non-empty list, then `offers.get(...)` — which raises
(and the whole block is skipped) unless the final value is a dict.  `some`
returns that dict's fields, `none` means the block is skipped. -/
def offersOf (kvs : List (String × Json)) : Option (List (String × Json)) :=
  let o0 := jgetD kvs "offers" (.obj [])
  let o1 := if truthyJ o0 then o0 else .obj []
  let o2 := match o1 with
    | .arr (x :: _) => x
    | other => other
  match o2 with
  | .obj okvs => some okvs
  | _ => none

/-- One iteration of the JSON-LD loop: None for a block whose json.loads
raised, whose type dispatch finds no Product, or whose offers shape raises
inside the try (all `continue`); otherwise the committed record. -/
def jsonLdHit : Option Json → Option Product
  | none => none
  | some j =>
    match productOf j with
    | none => none
    | some d =>
      match offersOf d with
      | none => none
      | some o =>
        some { name := jget d "name", price := jget o "price",
               currency := jget o "priceCurrency",
               availability := jgetD o "availability" (.str "In stock") }

/-- The JSON-LD loop: first block that commits wins. -/
def jsonLdScan : List (Option Json) → Option Product
  | [] => none
  | b :: rest =>
    match jsonLdHit b with
    | some p => some p
    | none => jsonLdScan rest

/-- The meta-tag probe for one field: walk the property list, take the
first tag found whose content attribute is truthy. -/
def metaField (metas : List (String × String)) : List String → Json
  | [] => .null
  | p :: rest =>
    match metas.lookup p with
    | some c => if c == "" then metaField metas rest else .str c
    | none => metaField metas rest

/-- The meta phase: each field is probed independently with its ordered
property list. -/
def metaProduct (html : Html) : Product :=
  { name := metaField html.metas ["og:title", "twitter:title"],
    price := metaField html.metas ["product:price:amount", "og:price:amount"],
    currency := metaField html.metas ["product:price:currency", "og:price:currency"],
    availability := metaField html.metas ["product:availability", "og:availability"] }

/-- Python `any(product.values())`. -/
def pyAny (p : Product) : Bool :=
  truthyJ p.name || truthyJ p.price || truthyJ p.currency || truthyJ p.availability

/-- The amazon branch.  When none of the primary price selectors matched
but `span.a-price-whole` did, the source builds
`type("obj", (object,), ...)` — a class whose only attribute is `text` —
and then calls `price_tag.get_text(strip=True)` on it, which raises
AttributeError out of `extract_product_info` (the class has no `get_text`).
`amazonPriceSymbol` feeds only the f-string built before that call, so it
cannot influence the outcome. -/
def amazonPhase (html : Html) : Except PyErr Product :=
  match html.amazonPrice with
  | some ptext =>
    .ok { name := optStr html.amazonName,
          price := optStr (clean_price (some ptext)),
          currency := .str "INR",
          availability := optStr html.amazonAvail }
  | none =>
    match html.amazonPriceWhole with
    | some _ => .error .attributeError
    | none =>
      .ok { name := optStr html.amazonName, price := .null,
            currency := .null, availability := optStr html.amazonAvail }

/-- The flipkart branch (always commits). -/
def flipkartPhase (html : Html) : Product :=
  match html.flipkartPrice with
  | some ptext =>
    { name := optStr html.flipkartName,
      price := optStr (clean_price (some ptext)),
      currency := .str "INR",
      availability := optStr html.flipkartAvail }
  | none =>
    { name := optStr html.flipkartName, price := .null,
      currency := .null, availability := optStr html.flipkartAvail }

mutual

/-- app.py `find_in_obj`: recursive search for a key; a dict with the key
returns its value immediately (even a null one), otherwise children are
searched in order and the first non-None result is kept.  Python conflates
"not found" with a found None, so the model returns `Json.null` for both —
every call site treats the two identically (`is not None` internally,
truthiness externally). -/
def find_in_obj : Json → String → Json
  | .obj kvs, k =>
    match lookupJ kvs k with
    | some v => v
    | none => findInObjVals kvs k
  | .arr xs, k => findInObjList xs k
  | _, _ => .null

def findInObjVals : List (String × Json) → String → Json
  | [], _ => .null
  | (_, v) :: rest, k =>
    match find_in_obj v k with
    | .null => findInObjVals rest k
    | r => r

def findInObjList : List Json → String → Json
  | [], _ => .null
  | x :: rest, k =>
    match find_in_obj x k with
    | .null => findInObjList rest k
    | r => r

end

mutual

/-- app.py `find_product_dict`: first (depth-first) dict having a "name"
key together with one of the known price-like keys. -/
def find_product_dict : Json → Option (List (String × Json))
  | .obj kvs =>
    if (lookupJ kvs "name").isSome &&
       ((lookupJ kvs "price").isSome || (lookupJ kvs "priceData").isSome ||
        (lookupJ kvs "mrp").isSome || (lookupJ kvs "finalPrice").isSome) then
      some kvs
    else findProductVals kvs
  | .arr xs => findProductList xs
  | _ => none

def findProductVals : List (String × Json) → Option (List (String × Json))
  | [] => none
  | (_, v) :: rest =>
    match find_product_dict v with
    | some r => some r
    | none => findProductVals rest

def findProductList : List Json → Option (List (String × Json))
  | [] => none
  | x :: rest =>
    match find_product_dict x with
    | some r => some r
    | none => findProductList rest

end

/-- Four lowercase hex digits (Python's `\uXXXX` escapes). -/
def hex4 (n : Nat) : String :=
  let ds := Nat.toDigits 16 n
  String.mk (List.replicate (4 - ds.length) '0' ++ ds)

/-- One character as Python `json.dumps` (ensure_ascii=True) renders it. -/
def escapeChar (c : Char) : String :=
  if c = '"' then "\\\""
  else if c = '\\' then "\\\\"
  else if c = '\n' then "\\n"
  else if c = '\t' then "\\t"
  else if c = '\r' then "\\r"
  else if c = '\x08' then "\\b"
  else if c = '\x0c' then "\\f"
  else if c.toNat < 32 then "\\u" ++ hex4 c.toNat
  else if c.toNat < 128 then String.mk [c]
  else if c.toNat ≤ 0xFFFF then "\\u" ++ hex4 c.toNat
  else
    let v := c.toNat - 0x10000
    "\\u" ++ hex4 (0xD800 + v / 1024) ++ "\\u" ++ hex4 (0xDC00 + v % 1024)

def escapeStr (s : String) : String := String.join (s.data.map escapeChar)

def dumpStr (s : String) : String := "\"" ++ escapeStr s ++ "\""

mutual

/-- Python `json.dumps` with its default separators and ASCII escaping. -/
def pyDumps : Json → String
  | .null => "null"
  | .bool true => "true"
  | .bool false => "false"
  | .num n => toString n
  | .str s => dumpStr s
  | .arr xs => "[" ++ dumpList xs ++ "]"
  | .obj kvs => "\x7b" ++ dumpObj kvs ++ "\x7d"

def dumpList : List Json → String
  | [] => ""
  | [x] => pyDumps x
  | x :: xs => pyDumps x ++ ", " ++ dumpList xs

def dumpObj : List (String × Json) → String
  | [] => ""
  | [(k, v)] => dumpStr k ++ ": " ++ pyDumps v
  | (k, v) :: rest => dumpStr k ++ ": " ++ pyDumps v ++ ", " ++ dumpObj rest

end

/-- The leftmost match of `[0-9]+(?:\.[0-9]+)?`: maximal digit run, then an
optional dot followed by a maximal non-empty digit run. -/
def grabNumber (l : List Char) : String :=
  let ds := l.takeWhile Char.isDigit
  match l.drop ds.length with
  | '.' :: r2 =>
    let fs := r2.takeWhile Char.isDigit
    if fs.isEmpty then String.mk ds else String.mk (ds ++ '.' :: fs)
  | _ => String.mk ds

def findFirstNumberL : List Char → Option String
  | [] => none
  | c :: cs => if c.isDigit then some (grabNumber (c :: cs)) else findFirstNumberL cs

/-- `re.search(r"([0-9]+(?:\.[0-9]+)?)", s)` returning the matched text. -/
def findFirstNumber (s : String) : Option String := findFirstNumberL s.data

/-- Python `str(c)` for a numeric candidate; `isinstance(True, int)` holds
in Python, so booleans take the numeric branch and render as True/False. -/
def pyStrNum (n : Int) : String := toString n

/-- The inner loop over a dict candidate's values: first numeric value as a
string, or first string value whose clean_price is truthy. -/
def innerScan : List (String × Json) → Option String
  | [] => none
  | (_, .num n) :: _ => some (pyStrNum n)
  | (_, .bool b) :: _ => some (if b then "True" else "False")
  | (_, .str s) :: rest =>
    match clean_price (some s) with
    | some c => some c
    | none => innerScan rest
  | _ :: rest => innerScan rest

/-- One candidate of `extract_price_from_product_dict`'s main loop. -/
def candValue : Json → Option String
  | .num n => some (pyStrNum n)
  | .bool b => some (if b then "True" else "False")
  | .str s => clean_price (some s)
  | .obj kvs => innerScan kvs
  | _ => none

def firstCandidate : List Json → Option String
  | [] => none
  | c :: rest =>
    match candValue c with
    | some s => some s
    | none => firstCandidate rest

/-- app.py `extract_price_from_product_dict`: truthy values of the known
price-like keys (then of the nested price dict) are tried in order; if none
yields a value, the serialized dict is scanned for its first numeric
token. -/
def extract_price_from_product_dict (kvs : List (String × Json)) : Option String :=
  let cand1 := ["discountedPrice", "discounted", "finalPrice", "sellingPrice", "price", "mrp"].filterMap
    (fun k => let v := jget kvs k; if truthyJ v then some v else none)
  let cand2 := match jget kvs "price" with
    | .obj pkvs => ["discounted", "final", "sellingPrice", "value"].filterMap
        (fun k => let v := jget pkvs k; if truthyJ v then some v else none)
    | _ => []
  match firstCandidate (cand1 ++ cand2) with
  | some s => some s
  | none => findFirstNumber (pyDumps (.obj kvs))

/-- Python `d.get(k, default)` on an arbitrary value: raises AttributeError
unless the value is a dict. -/
def pyGet (j : Json) (k : String) (d : Json) : Except PyErr Json :=
  match j with
  | .obj kvs => .ok (jgetD kvs k d)
  | _ => .error .attributeError

/-- The `data_obj` selection of the myntra branch: the parsed __NEXT_DATA__
payload when the tag parsed; when that left `data_obj` falsy, the result of
the best-effort scan over the other script tags (kept as the falsy parse
when the scan finds nothing). -/
def myntraData (html : Html) : Option Json :=
  let d0 : Option Json := match html.nextDataParse with
    | some (some j) => some j
    | _ => none
  match d0 with
  | some j =>
    if truthyJ j then some j
    else
      match html.scriptScan with
      | some j2 => some j2
      | none => some j
  | none => html.scriptScan

/-- The `product_data` or-chain of the myntra branch, with Python's
left-to-right short-circuit (later `.get` calls — which can raise — are
only evaluated when every earlier alternative was falsy). -/
def myntraChain (pp : Json) : Except PyErr Json := do
  let a1 ← pyGet pp "product" .null
  if truthyJ a1 then return a1
  let a2 ← pyGet pp "pdp" .null
  if truthyJ a2 then return a2
  let i ← pyGet pp "initialData" (.obj [])
  let a3 ← pyGet i "product" .null
  if truthyJ a3 then return a3
  let a4 := find_in_obj pp "product"
  if truthyJ a4 then return a4
  let a5 := find_in_obj pp "productDetails"
  if truthyJ a5 then return a5
  return find_in_obj pp "style"

/-- The myntra DOM fallback (step 5 of the branch). -/
def myntraDom (html : Html) : Product :=
  let cpv := match html.myntraPrice with
    | some t => clean_price (some t)
    | none => none
  { name := optStr html.myntraName,
    price := optStr cpv,
    currency := match cpv with | some _ => .str "INR" | none => .null,
    availability :=
      if html.myntraOosBtn || html.myntraOosText then .str "Out of stock"
      else if html.myntraAddToBag then .str "In stock"
      else .null }

/-- Field extraction from a truthy `product_data` (step 4): raises
AttributeError on `product_data.get("name")` unless it is a dict; commits
only when the resulting name or price is truthy, otherwise the DOM
fallback runs. -/
def myntraFromData (html : Html) (pd : Json) : Except PyErr Product :=
  match pd with
  | .obj kvs =>
    let name := pyOrJ (jget kvs "name") (pyOrJ (jget kvs "displayName") (jget kvs "productName"))
    let price := extract_price_from_product_dict kvs
    let currency0 := match jget kvs "price" with
      | .obj pkvs => pyOrJ (jget pkvs "currency") (jget pkvs "currencyCode")
      | _ => .null
    let priceTruthy := match price with
      | some s => !(s == "")
      | none => false
    let currency := if !truthyJ currency0 && priceTruthy then Json.str "INR" else currency0
    let availability := match jget kvs "inStock" with
      | .bool b => Json.str (if b then "In stock" else "Out of stock")
      | _ =>
        match jget kvs "stock" with
        | .obj skvs => Json.str (if truthyJ (jgetD skvs "available" (.bool true)) then "In stock" else "Out of stock")
        | _ => Json.null
    let priceJ := match price with
      | some s => optStr (clean_price (some s))
      | none => Json.null
    let prod : Product := { name := name, price := priceJ, currency := currency, availability := availability }
    if truthyJ prod.name || truthyJ prod.price then .ok prod else .ok (myntraDom html)
  | _ => .error .attributeError

/-- The myntra branch of `extract_product_info`. -/
def myntraPhase (html : Html) : Except PyErr Product := do
  match myntraData html with
  | none => return myntraDom html
  | some j =>
    if truthyJ j then
      let props ← pyGet j "props" (.obj [])
      let pp ← pyGet props "pageProps" (.obj [])
      let pdChain ← myntraChain pp
      let pd : Json :=
        if truthyJ pdChain then pdChain
        else
          match find_product_dict j with
          | some kvs => .obj kvs
          | none => .null
      if truthyJ pd then myntraFromData html pd
      else return myntraDom html
    else return myntraDom html

/-- app.py `extract_product_info`: the extraction waterfall.  JSON-LD, then
meta tags (committing when any of the four fields resolved), then the
site-specific branches chosen by URL substring, then the generic title
fallback. -/
def extract_product_info (html : Html) (url : String) : Except PyErr Product :=
  match jsonLdScan html.jsonLd with
  | some p => .ok p
  | none =>
    let mp := metaProduct html
    if pyAny mp then .ok mp
    else if pyContains url "amazon." then amazonPhase html
    else if pyContains url "flipkart." then .ok (flipkartPhase html)
    else if pyContains url "myntra." then myntraPhase html
    else
      .ok { name := optStr html.title, price := .null, currency := .null,
            availability := .str "In stock" }

/-- Python `round(x, 2)` (round half to even, as Python does) over ℚ. -/
def roundHalfEven (x : ℚ) : ℤ :=
  let f := ⌊x⌋
  let r := x - f
  if r < 1 / 2 then f
  else if 1 / 2 < r then f + 1
  else if f % 2 = 0 then f else f + 1

def pyRound2 (x : ℚ) : ℚ := (roundHalfEven (x * 100) : ℚ) / 100

/-- app.py `audit_product`: three equally weighted boolean checks; each
failed check appends its fixed recommendation strings (two for the
price-with-currency check); a perfect unrounded score appends the success
message.  The score arithmetic is modelled in ℚ; the only reachable scores
(multiples of 100/3) round identically in ℚ and in Python floats. -/
def audit_product (p : Product) : ℚ × List String :=
  let c1 := truthyJ p.name
  let c2 := truthyJ p.price && truthyJ p.currency
  let c3 := truthyJ p.availability
  let hits : ℚ := (if c1 then 1 else 0) + (if c2 then 1 else 0) + (if c3 then 1 else 0)
  let score : ℚ := hits / 3 * 100
  let recs : List String :=
    (if !c1 then ["Add structured product name in JSON-LD or HTML metadata."] else []) ++
    (if !c2 then ["Add price in machine-readable format.", "Include product currency clearly."] else []) ++
    (if !c3 then ["Specify availability status clearly."] else []) ++
    (if score = 100 then ["Store is agent-ready ✅"] else [])
  (pyRound2 score, recs)

/-- The block-signal list as the specification describes it, minus the
"too many requests" entry that the source never checks (spec-side
definition used to compare the code's detector against its description). -/
def blockSignalsAmended : List String :=
  ["captcha", "access denied", "automated access", "bot check",
   "service unavailable", "site maintenance"]

/-- The amazon-specific signals of the source. -/
def amazonBlockSignals : List String :=
  ["to discuss automated access to amazon data", "enter the characters you see below"]

/-- Spec-side formulation of the block detector: empty or absent HTML is
blocked, otherwise a case-insensitive scan over the fixed signal list plus
the amazon-specific signals for amazon URLs. -/
def is_blocked_spec (url : String) (html : Option String) : Bool :=
  match html with
  | none => true
  | some h =>
    if h == "" then true
    else
      blockSignalsAmended.any (fun sig => pyContains (pyLower h) sig) ||
      (pyContains url "amazon." && amazonBlockSignals.any (fun sig => pyContains (pyLower h) sig))

/-- The HTML the fetch orchestrator hands back on success. -/
def fetchedHtml : Except PyErr (Option String) → Option String
  | .ok r => r
  | .error _ => none

/-- An amazon page with only a title: every selector of the amazon branch
misses, yet the branch commits its all-null record. -/
def c1Html : Html := { emptyHtml with title := some "T" }

/-- A JSON-LD block that is well-formed JSON, declares type "Product", but
carries a string-valued offers field. -/
def c7Block : Json :=
  .obj [("@type", .str "Product"), ("name", .str "X"), ("offers", .str "cheap")]

def c7Html : Html := { emptyHtml with jsonLd := [some c7Block], title := some "T" }

/-- A well-formed Product block with a dict offers sub-object and no
availability field, preceded by a malformed block. -/
def w7Block : Json :=
  .obj [("@type", .str "Product"), ("name", .str "N"),
        ("offers", .obj [("price", .num 499), ("priceCurrency", .str "INR")])]

def w7kvs : List (String × Json) :=
  [("@type", .str "Product"), ("name", .str "N"),
   ("offers", .obj [("price", .num 499), ("priceCurrency", .str "INR")])]

def w7okvs : List (String × Json) := [("price", .num 499), ("priceCurrency", .str "INR")]

def w7Html : Html := { emptyHtml with jsonLd := [none, some w7Block] }

/-- The end-to-end amazon scenario of the spec: a productTitle and an
a-price-whole span, no JSON-LD, no metas. -/
def c9Html : Html := { emptyHtml with amazonName := some "Widget", amazonPriceWhole := some "499" }

theorem dropWhile_eq_self_of {p : Char → Bool} {l : List Char}
    (h : ∀ c ∈ l, p c = false) : l.dropWhile p = l := by
  cases l with
  | nil => rfl
  | cons c cs => simp [List.dropWhile_cons, h c (List.mem_cons_self c cs)]

theorem stripL_eq_self {l : List Char} (h : ∀ c ∈ l, isPyWs c = false) :
    stripL l = l := by
  unfold stripL
  rw [dropWhile_eq_self_of h, dropWhile_eq_self_of, List.reverse_reverse]
  intro c hc
  exact h c (List.mem_reverse.mp hc)

theorem leadsWith_mem {pat l : List Char} (h : leadsWith pat l = true) :
    ∀ c ∈ pat, c ∈ l := by
  induction pat generalizing l with
  | nil => simp
  | cons a as ih =>
    cases l with
    | nil => simp [leadsWith] at h
    | cons b bs =>
      simp only [leadsWith, Bool.and_eq_true, beq_iff_eq] at h
      obtain ⟨rfl, h2⟩ := h
      intro c hc
      rcases List.mem_cons.mp hc with rfl | hc
      · exact List.mem_cons_self _ _
      · exact List.mem_cons_of_mem _ (ih h2 c hc)

theorem removeAllFuel_eq_self {p : Char → Bool} {pat : List Char} (bad : Char)
    (hbad : bad ∈ pat) (hbp : p bad = false) :
    ∀ (fuel : Nat) (l : List Char), (∀ c ∈ l, p c = true) → removeAllFuel pat fuel l = l := by
  intro fuel
  induction fuel with
  | zero => intro l _; rfl
  | succ n ih =>
    intro l hl
    cases l with
    | nil => rfl
    | cons c cs =>
      have hlw : leadsWith pat (c :: cs) = false := by
        cases hcon : leadsWith pat (c :: cs) with
        | false => rfl
        | true =>
          have hmem := leadsWith_mem hcon bad hbad
          rw [hl bad hmem] at hbp
          exact absurd hbp (by simp)
      have hcond : (leadsWith pat (c :: cs) && !pat.isEmpty) = false := by
        rw [hlw]; rfl
      simp only [removeAllFuel]
      rw [hcond, if_neg (by simp)]
      exact congrArg (c :: ·) (ih cs (fun x hx => hl x (List.mem_cons_of_mem _ hx)))

theorem removeAll_eq_self {p : Char → Bool} {pat l : List Char} (bad : Char)
    (hbad : bad ∈ pat) (hbp : p bad = false) (hl : ∀ c ∈ l, p c = true) :
    removeAll pat l = l :=
  removeAllFuel_eq_self bad hbad hbp l.length l hl

theorem ws_not_digitDot {c : Char} (h : isPyWs c = true) : isDigitDot c = false := by
  simp only [isPyWs, Bool.or_eq_true, beq_iff_eq] at h
  rcases h with ((((rfl | rfl) | rfl) | rfl) | rfl) | rfl <;> decide

theorem digitDot_not_ws {c : Char} (h : isDigitDot c = true) : isPyWs c = false := by
  cases hw : isPyWs c with
  | false => rfl
  | true => rw [ws_not_digitDot hw] at h; exact absurd h (by simp)

theorem clean_price_of_clean {s : String} (hne : s ≠ "")
    (hd : ∀ c ∈ s.data, isDigitDot c = true) : clean_price (some s) = some s := by
  have hne2 : (s == "") = false := by simpa using hne
  have hdata : s.data ≠ [] := by
    intro h
    apply hne
    cases s with
    | mk l => cases h; rfl
  have hstrip : stripL s.data = s.data :=
    stripL_eq_self (fun c hc => digitDot_not_ws (hd c hc))
  have h1 : removeAll "₹".data s.data = s.data :=
    removeAll_eq_self '₹' (by decide) (by decide) hd
  have h2 : removeAll "Rs.".data s.data = s.data :=
    removeAll_eq_self 'R' (by decide) (by decide) hd
  have h3 : removeAll "MRP".data s.data = s.data :=
    removeAll_eq_self 'M' (by decide) (by decide) hd
  have h4 : removeAll "/-".data s.data = s.data :=
    removeAll_eq_self '/' (by decide) (by decide) hd
  have h5 : s.data.filter isDigitDot = s.data := List.filter_eq_self.mpr hd
  have h6 : (s.data == ([] : List Char)) = false := by simpa using hdata
  simp only [clean_price, hne2, Bool.false_eq_true, if_false, hstrip, h1, h2, h3, h4, h5, h6]

theorem clean_price_output (x : Option String) :
    clean_price x = none ∨
    ∃ s, clean_price x = some s ∧ s ≠ "" ∧ ∀ c ∈ s.data, isDigitDot c = true := by
  cases x with
  | none => exact Or.inl rfl
  | some s =>
    by_cases hs : s = ""
    · subst hs; exact Or.inl rfl
    · have hne2 : (s == "") = false := by simpa using hs
      simp only [clean_price, hne2, Bool.false_eq_true, if_false]
      split
      · exact Or.inl rfl
      · next h5 =>
        right
        refine ⟨_, rfl, ?_, ?_⟩
        · intro hmk
          apply h5
          have : (List.filter isDigitDot (removeAll "/-".data (removeAll "MRP".data
              (removeAll "Rs.".data (removeAll "₹".data (stripL s.data)))))) = [] :=
            congrArg String.data hmk
          simp [this]
        · intro c hc
          exact (List.mem_filter.mp hc).2

/-- C10: `clean_price` is idempotent, normalizing an already-clean numeric
string returns it unchanged, and the three concrete contract points hold:
the rupee example normalizes to "1299.00", and the empty and absent inputs
both map to None. -/
theorem c10_clean_price_props :
    (∀ x, clean_price (clean_price x) = clean_price x) ∧
    clean_price (some "₹1,299.00") = some "1299.00" ∧
    clean_price (some "") = none ∧
    clean_price none = none ∧
    (∀ s : String, s ≠ "" → (∀ c ∈ s.data, isDigitDot c = true) →
      clean_price (some s) = some s) := by
  refine ⟨?_, by decide, rfl, rfl, fun s h1 h2 => clean_price_of_clean h1 h2⟩
  intro x
  rcases clean_price_output x with h | ⟨s, h, hne, hd⟩
  · rw [h]; rfl
  · rw [h]; exact clean_price_of_clean hne hd

/-- C10 witness: the theorem applied to the already-clean string "1299.00". -/
theorem c10_clean_price_props_witness :
    clean_price (some "1299.00") = some "1299.00" :=
  c10_clean_price_props.2.2.2.2 "1299.00" (by decide) (by decide)

/-- C8 counterexample: "too many requests" is listed among the claim's
block signals, but the source checks no such signal — HTML containing it
(and nothing else from the list) is classified as not blocked. -/
theorem c8_counterexample :
    pyContains (pyLower "<html>too many requests</html>") "too many requests" = true ∧
    is_block_page "https://example.com/p" (some "<html>too many requests</html>") = false := by
  exact ⟨by decide, by decide⟩

/-- C8 (amended): the detector returns True for empty or absent HTML, and
otherwise exactly when the lowercased HTML contains one of the six signals
the source actually checks — captcha, access denied, automated access,
bot check, service unavailable, site maintenance ("too many requests" is
not among them) — or, for an amazon. URL, one of the two amazon-specific
signals; in particular the captcha example is blocked and the Welcome
example is not. -/
theorem c8_block_signals :
    (∀ url html, is_block_page url html = is_blocked_spec url html) ∧
    (∀ url, is_block_page url none = true) ∧
    (∀ url, is_block_page url (some "") = true) ∧
    (∀ url, is_block_page url (some "<html>captcha check</html>") = true) ∧
    (∀ url, is_block_page url (some "<html>Welcome</html>") = false) := by
  have hequiv : ∀ url html, is_block_page url html = is_blocked_spec url html := by
    intro url html
    cases html with
    | none => rfl
    | some h =>
      simp only [is_block_page, is_blocked_spec, blockSignalsAmended, amazonBlockSignals,
        List.any_cons, List.any_nil, Bool.or_false]
      cases hE : h == "" with
      | true => rfl
      | false =>
        simp only [Bool.false_eq_true, if_false]
        generalize pyContains (pyLower h) "site maintenance" = m
        generalize pyContains (pyLower h) "service unavailable" = u
        generalize pyContains (pyLower h) "captcha" = c
        generalize pyContains (pyLower h) "automated access" = a
        generalize pyContains (pyLower h) "bot check" = b
        generalize pyContains (pyLower h) "access denied" = d
        generalize pyContains url "amazon." = g
        generalize pyContains (pyLower h) "to discuss automated access to amazon data" = w
        generalize pyContains (pyLower h) "enter the characters you see below" = e
        cases m <;> cases u <;> cases c <;> cases a <;> cases b <;> cases d <;>
          cases g <;> cases w <;> cases e <;> rfl
  refine ⟨hequiv, fun url => rfl, fun url => rfl, fun url => rfl, ?_⟩
  intro url
  rw [hequiv]
  simp only [is_blocked_spec]
  cases hu : pyContains url "amazon." <;> decide

/-- C6: whenever any strategy outcome the orchestrator may consult — the
rendered result, the direct result, or the proxy result when a credential
is configured — is non-empty and classified unblocked, `fetch_page`
returns normally and the returned HTML is non-empty and unblocked. -/
theorem c6_unblocked_preserved (key : Option String) (url : String) (pw prox http : Option String)
    (h : usable url pw = true ∨ usable url http = true ∨
         (truthyS key = true ∧ usable url prox = true)) :
    (fetch_page key url pw prox http).isOk = true ∧
    usable url (fetchedHtml (fetch_page key url pw prox http)) = true := by
  by_cases hpw : usable url pw = true
  · have heq : fetch_page key url pw prox http = .ok pw := by
      unfold fetch_page; rw [if_pos hpw]
    rw [heq]; exact ⟨rfl, hpw⟩
  · rcases h with h | h | ⟨hk, hpx⟩
    · exact absurd h hpw
    · by_cases hk : truthyS key = true
      · by_cases hpx : usable url prox = true
        · have heq : fetch_page key url pw prox http = .ok prox := by
            unfold fetch_page; rw [if_neg hpw, if_pos hk, if_pos hpx]
          rw [heq]; exact ⟨rfl, hpx⟩
        · have heq : fetch_page key url pw prox http = .ok http := by
            unfold fetch_page; rw [if_neg hpw, if_pos hk, if_neg hpx, if_pos h]
          rw [heq]; exact ⟨rfl, h⟩
      · have heq : fetch_page key url pw prox http = .ok http := by
          unfold fetch_page; rw [if_neg hpw, if_neg hk, if_pos h]
        rw [heq]; exact ⟨rfl, h⟩
    · have heq : fetch_page key url pw prox http = .ok prox := by
        unfold fetch_page; rw [if_neg hpw, if_pos hk, if_pos hpx]
      rw [heq]; exact ⟨rfl, hpx⟩

/-- C6 witness: an unblocked rendered result survives to the caller. -/
theorem c6_unblocked_preserved_witness :
    (fetch_page none "https://example.com/g" (some "<html>Welcome</html>") none none).isOk = true ∧
    usable "https://example.com/g"
      (fetchedHtml (fetch_page none "https://example.com/g" (some "<html>Welcome</html>") none none)) = true :=
  c6_unblocked_preserved none "https://example.com/g" (some "<html>Welcome</html>") none none
    (Or.inl (by decide))

/-- C2 counterexample: with the credential set, both the rendered and the
direct strategy returning non-empty blocked HTML and the proxy returning
nothing, the exhausted orchestrator returns the rendered (first-attempted)
HTML, not the last non-empty HTML (the direct result). -/
theorem c2_counterexample :
    truthyS (some "<html>captcha a</html>") = true ∧
    usable "https://example.com/p" (some "<html>captcha a</html>") = false ∧
    truthyS (some "<html>captcha b</html>") = true ∧
    usable "https://example.com/p" (some "<html>captcha b</html>") = false ∧
    fetch_page (some "k") "https://example.com/p" (some "<html>captcha a</html>") none
      (some "<html>captcha b</html>") = Except.ok (some "<html>captcha a</html>") ∧
    some "<html>captcha a</html>" ≠ some "<html>captcha b</html>" :=
  ⟨by decide, by decide, by decide, by decide, rfl, by decide⟩

/-- C2 (amended): with the credential configured, when every strategy is
exhausted without a non-empty unblocked result, `fetch_page` returns the
first non-empty HTML in attempt order (rendered, then proxy, then direct),
and that value is empty or absent exactly when no strategy produced
non-empty HTML at all. -/
theorem c2_exhausted_first_nonempty (key : Option String) (url : String)
    (pw prox http : Option String) (hk : truthyS key = true)
    (h1 : usable url pw = false) (h2 : usable url prox = false)
    (h3 : usable url http = false) :
    fetch_page key url pw prox http = Except.ok (pyOr pw (pyOr prox http)) ∧
    truthyS (pyOr pw (pyOr prox http)) = (truthyS pw || truthyS prox || truthyS http) := by
  constructor
  · unfold fetch_page
    rw [if_neg (by simp [h1]), if_pos hk, if_neg (by simp [h2]), if_neg (by simp [h3])]
  · cases hpw : truthyS pw <;> cases hpx : truthyS prox <;> simp [pyOr, hpw, hpx]

/-- C2 witness: the amended statement at the counterexample's inputs. -/
theorem c2_exhausted_first_nonempty_witness :
    fetch_page (some "k") "https://example.com/p" (some "<html>captcha a</html>") none
      (some "<html>captcha b</html>") =
      Except.ok (pyOr (some "<html>captcha a</html>") (pyOr none (some "<html>captcha b</html>"))) ∧
    truthyS (pyOr (some "<html>captcha a</html>") (pyOr none (some "<html>captcha b</html>"))) =
      (truthyS (some "<html>captcha a</html>") || truthyS (none : Option String) ||
       truthyS (some "<html>captcha b</html>")) :=
  c2_exhausted_first_nonempty (some "k") "https://example.com/p" _ _ _
    (by decide) (by decide) (by decide) (by decide)

/-- C5 counterexample: the credential is unset and neither the rendered nor
the direct fetch produced a non-empty unblocked result, yet no NameError is
raised — the rendered fetch produced non-empty blocked HTML, which
short-circuits `html or proxy_html or http_html` before the unassigned
name is evaluated, and that HTML is returned. -/
theorem c5_counterexample :
    truthyS (some "<html>captcha</html>") = true ∧
    usable "https://example.com/p" (some "<html>captcha</html>") = false ∧
    usable "https://example.com/p" (none : Option String) = false ∧
    fetch_page none "https://example.com/p" (some "<html>captcha</html>") none none =
      Except.ok (some "<html>captcha</html>") ∧
    Except.ok (some "<html>captcha</html>") ≠
      (Except.error PyErr.nameError : Except PyErr (Option String)) :=
  ⟨by decide, by decide, by decide, rfl, by simp⟩

/-- C5 (amended): when SCRAPER_API_KEY is not configured, the rendered
fetch produced no HTML at all (None or empty), and the direct fetch failed
to produce a non-empty unblocked result, app.py's `fetch_page` raises an
unhandled NameError on the final fallback expression's reference to the
never-assigned `proxy_html`. -/
theorem c5_name_error (url : String) (pw prox http : Option String)
    (hpw : truthyS pw = false) (hh : usable url http = false) :
    fetch_page none url pw prox http = Except.error PyErr.nameError := by
  have h1 : usable url pw = false := by simp [usable, hpw]
  unfold fetch_page
  rw [if_neg (by simp [h1]), if_neg (by decide), if_neg (by simp [hh]), if_neg (by simp [hpw])]

/-- C5 witness: rendered fetch returned None, direct fetch returned blocked
HTML, no credential — the function raises NameError. -/
theorem c5_name_error_witness :
    fetch_page none "https://example.com/p" none none (some "<html>captcha</html>") =
      Except.error PyErr.nameError :=
  c5_name_error "https://example.com/p" none none (some "<html>captcha</html>")
    (by decide) (by decide)

/-- C4 counterexample: a myntra URL with the credential unset makes the
audit endpoint surface the missing credential as an HTTP 403 error
response. -/
theorem c4_counterexample :
    audit_fetch_dispatch none "https://www.myntra.com/p/1" =
      FetchDispatch.httpError 403 "Myntra requires proxy but no SCRAPER_API_KEY is set" := by
  decide

/-- C4 (amended): the proxy strategy itself never raises on a missing
credential — `fetch_via_proxy` silently yields None — and for every
non-myntra URL the audit endpoint proceeds with the default strategy chain
regardless of the credential; but for myntra URLs a missing credential is
surfaced as an HTTP 403 error response. -/
theorem c4_missing_key_behavior :
    (∀ r, fetch_via_proxy none r = none) ∧
    (∀ (key : Option String) (url : String), pyContains url "myntra." = false →
      audit_fetch_dispatch key url = FetchDispatch.defaultFetch) ∧
    (∀ url, pyContains url "myntra." = true →
      audit_fetch_dispatch none url =
        FetchDispatch.httpError 403 "Myntra requires proxy but no SCRAPER_API_KEY is set") := by
  refine ⟨fun r => rfl, ?_, ?_⟩
  · intro key url h
    unfold audit_fetch_dispatch
    rw [if_neg (by simp [h])]
  · intro url h
    unfold audit_fetch_dispatch
    rw [if_pos h, if_pos (by decide)]

/-- C4 witness: the three behaviors at concrete inputs. -/
theorem c4_missing_key_behavior_witness :
    fetch_via_proxy none (some "<html>page</html>") = none ∧
    audit_fetch_dispatch (some "k") "https://example.com/p" = FetchDispatch.defaultFetch ∧
    audit_fetch_dispatch none "https://www.myntra.com/p/2" =
      FetchDispatch.httpError 403 "Myntra requires proxy but no SCRAPER_API_KEY is set" :=
  ⟨c4_missing_key_behavior.1 (some "<html>page</html>"),
   c4_missing_key_behavior.2.1 (some "k") "https://example.com/p" (by decide),
   c4_missing_key_behavior.2.2 "https://www.myntra.com/p/2" (by decide)⟩

/-- C1 counterexample: on an amazon URL whose selectors all miss, the
amazon branch commits a record with every field null — name and price both
null — and the lower-priority generic strategy is never consulted, even
though it would have produced the title "T" and availability "In stock"
(as the same document does under a generic URL). -/
theorem c1_counterexample :
    extract_product_info c1Html "https://www.amazon.in/dp/X" =
      Except.ok { name := .null, price := .null, currency := .null, availability := .null } ∧
    c1Html.title = some "T" ∧
    extract_product_info c1Html "https://generic.example.com/item" =
      Except.ok { name := .str "T", price := .null, currency := .null,
                  availability := .str "In stock" } :=
  ⟨rfl, rfl, rfl⟩

/-- C1 (amended): the waterfall's commit test is not "name or price
non-null" for the site-specific strategies — for every amazon-matching URL,
once the JSON-LD scan and the meta phase decline, the waterfall commits to
the amazon branch's outcome unconditionally, even when that record's name
and price are both null, and never consults the generic fallback. -/
theorem c1_amazon_commits (html : Html) (url : String)
    (hu : pyContains url "amazon." = true)
    (h1 : jsonLdScan html.jsonLd = none)
    (h2 : pyAny (metaProduct html) = false) :
    extract_product_info html url = amazonPhase html := by
  simp [extract_product_info, h1, h2, hu]

/-- C1 witness: the amended statement at the counterexample's document. -/
theorem c1_amazon_commits_witness :
    pyContains "https://www.amazon.in/dp/X" "amazon." = true ∧
    jsonLdScan c1Html.jsonLd = none ∧
    pyAny (metaProduct c1Html) = false ∧
    extract_product_info c1Html "https://www.amazon.in/dp/X" = amazonPhase c1Html :=
  ⟨rfl, rfl, rfl, c1_amazon_commits c1Html "https://www.amazon.in/dp/X" rfl rfl rfl⟩

theorem jsonLdScan_append (pre rest : List (Option Json))
    (h : ∀ b ∈ pre, jsonLdHit b = none) :
    jsonLdScan (pre ++ rest) = jsonLdScan rest := by
  induction pre with
  | nil => rfl
  | cons b bs ih =>
    have hb : jsonLdHit b = none := h b (List.mem_cons_self _ _)
    simp only [List.cons_append, jsonLdScan, hb]
    exact ih (fun x hx => h x (List.mem_cons_of_mem _ hx))

/-- C7 counterexample: a well-formed JSON-LD block of declared type
"Product" with name "X" but a string-valued offers field is skipped (the
offers lookup raises inside the try), and the waterfall falls through to
the generic strategy, returning the page title instead of the block's
name. -/
theorem c7_counterexample :
    productOf c7Block =
      some [("@type", .str "Product"), ("name", .str "X"), ("offers", .str "cheap")] ∧
    extract_product_info c7Html "https://shop.example.com/p" =
      Except.ok { name := .str "T", price := .null, currency := .null,
                  availability := .str "In stock" } ∧
    Json.str "T" ≠ Json.str "X" :=
  ⟨rfl, rfl, by simp⟩

/-- C7 (amended): for every HTML and URL, when a JSON-LD block parses,
declares type "Product" (directly or as the first Product element of an
array), its offers value normalizes to a JSON object (absent or falsy
offers become an empty object, a non-empty array is replaced by its first
element; any other truthy shape raises and the block is skipped like a
malformed one), and every earlier block declines, the waterfall returns
that block's name, offer price and offer currency verbatim — no
lower-priority strategy runs — with availability defaulting to "In stock"
when the offer omits it; malformed blocks among the earlier ones are
skipped without aborting the scan. -/
theorem c7_jsonld_verbatim (html : Html) (url : String) (pre post : List (Option Json))
    (j : Json) (d o : List (String × Json))
    (hb : html.jsonLd = pre ++ some j :: post)
    (hp : ∀ b ∈ pre, jsonLdHit b = none)
    (hd : productOf j = some d)
    (ho : offersOf d = some o) :
    extract_product_info html url =
      Except.ok { name := jget d "name", price := jget o "price",
                  currency := jget o "priceCurrency",
                  availability := jgetD o "availability" (.str "In stock") } := by
  have hscan : jsonLdScan html.jsonLd =
      some { name := jget d "name", price := jget o "price",
             currency := jget o "priceCurrency",
             availability := jgetD o "availability" (.str "In stock") } := by
    rw [hb, jsonLdScan_append pre _ hp]
    simp only [jsonLdScan, jsonLdHit, hd, ho]
  simp [extract_product_info, hscan]

/-- C7 witness: a malformed first block is skipped, the second block is a
Product with a dict offer omitting availability, and the result is its
fields verbatim with the "In stock" default — on an amazon URL, so the
site-specific strategy demonstrably did not run. -/
theorem c7_jsonld_verbatim_witness :
    w7Html.jsonLd = [none] ++ some w7Block :: [] ∧
    jsonLdHit none = none ∧
    productOf w7Block = some w7kvs ∧
    offersOf w7kvs = some w7okvs ∧
    extract_product_info w7Html "https://www.amazon.in/x" =
      Except.ok { name := jget w7kvs "name", price := jget w7okvs "price",
                  currency := jget w7okvs "priceCurrency",
                  availability := jgetD w7okvs "availability" (.str "In stock") } :=
  ⟨rfl, rfl, rfl, rfl,
   c7_jsonld_verbatim w7Html "https://www.amazon.in/x" [none] [] w7Block w7kvs w7okvs rfl
     (by intro b hb; simp only [List.mem_singleton] at hb; subst hb; rfl) rfl rfl⟩

/-- C9: the spec's amazon end-to-end scenario crashes in the source instead
of returning the described record: with productTitle "Widget" and
a-price-whole "499" (no primary price selector hit), the code builds a
synthetic price_tag class carrying only a `text` attribute and then calls
`get_text` on it, raising AttributeError.  The scoring half of the claim is
accurate: the intended record scores 66.67 with exactly the availability
recommendation. -/
theorem c9_amazon_price_whole_crash :
    extract_product_info c9Html "https://www.amazon.in/dp/B0TEST" =
      Except.error PyErr.attributeError ∧
    audit_product { name := .str "Widget", price := .str "499", currency := .str "INR",
                    availability := .null } =
      (6667 / 100, ["Specify availability status clearly."]) := by
  refine ⟨rfl, ?_⟩
  have e1 : truthyJ (Json.str "Widget") = true := by decide
  have e2 : truthyJ (Json.str "499") = true := by decide
  have e3 : truthyJ (Json.str "INR") = true := by decide
  simp only [audit_product, e1, e2, e3]
  norm_num [truthyJ, pyRound2, roundHalfEven]

/-- C3 counterexample: a product with all four fields absent yields exactly
the four negative recommendation strings, not five. -/
theorem c3_counterexample :
    audit_product { name := .null, price := .null, currency := .null, availability := .null } =
      (0, ["Add structured product name in JSON-LD or HTML metadata.",
           "Add price in machine-readable format.",
           "Include product currency clearly.",
           "Specify availability status clearly."]) ∧
    (audit_product { name := .null, price := .null, currency := .null,
                     availability := .null }).2.length ≠ 5 := by
  have h : audit_product { name := .null, price := .null, currency := .null,
                           availability := .null } =
      (0, ["Add structured product name in JSON-LD or HTML metadata.",
           "Add price in machine-readable format.",
           "Include product currency clearly.",
           "Specify availability status clearly."]) := by
    simp only [audit_product]
    norm_num [truthyJ, pyRound2, roundHalfEven]
  exact ⟨h, by rw [h]; decide⟩

/-- C3 (amended): a product with all four fields truthy scores exactly
100.0 with recommendations containing exactly the single success message; a
product with all four fields absent scores 0.0 with a recommendations list
of four strings covering all four negative messages (the price/currency
check contributing two distinct recommendations). -/
theorem c3_scoring_extremes (p q : Product)
    (h1 : truthyJ p.name = true) (h2 : truthyJ p.price = true)
    (h3 : truthyJ p.currency = true) (h4 : truthyJ p.availability = true)
    (g1 : truthyJ q.name = false) (g2 : truthyJ q.price = false)
    (g3 : truthyJ q.currency = false) (g4 : truthyJ q.availability = false) :
    audit_product p = (100, ["Store is agent-ready ✅"]) ∧
    audit_product q =
      (0, ["Add structured product name in JSON-LD or HTML metadata.",
           "Add price in machine-readable format.",
           "Include product currency clearly.",
           "Specify availability status clearly."]) := by
  constructor
  · simp only [audit_product, h1, h2, h3, h4]
    norm_num [pyRound2, roundHalfEven]
  · simp only [audit_product, g1, g2, g3, g4]
    norm_num [pyRound2, roundHalfEven]

/-- C3 witness: the two extremes at concrete products. -/
theorem c3_scoring_extremes_witness :
    audit_product { name := .str "A", price := .str "9", currency := .str "INR",
                    availability := .str "In stock" } = (100, ["Store is agent-ready ✅"]) ∧
    audit_product { name := .null, price := .num 0, currency := .str "",
                    availability := .bool false } =
      (0, ["Add structured product name in JSON-LD or HTML metadata.",
           "Add price in machine-readable format.",
           "Include product currency clearly.",
           "Specify availability status clearly."]) :=
  c3_scoring_extremes
    { name := .str "A", price := .str "9", currency := .str "INR",
      availability := .str "In stock" }
    { name := .null, price := .num 0, currency := .str "", availability := .bool false }
    (by decide) (by decide) (by decide) (by decide)
    (by decide) (by decide) (by decide) (by decide)
